import Mathlib

/-!
Verification of the order object builder and hash/signature pipeline of the
extended-sdk-golang repository.

The pipeline's decimal arithmetic (github.com/shopspring/decimal) is an exact
coefficient-times-power-of-ten representation; we embed it as the structure
`GoDecimal` below with the operations the pipeline uses (`Mul`, `Add`, `Ceil`,
`Floor`, `IntPart`, string rendering).  All operations are exact integer
computations, matching the library: `Ceil`/`Floor` use Euclidean division with
remainder correction (big.Int `Div`/`DivMod`), `IntPart` uses truncated
division (big.Int `Quo`).  Machine-integer (int64) range limits are not
modelled: the Go library's `IntPart` is undefined outside the int64 range, and
all quantities handled by the claims are far inside it.

Instants of `time.Time` are embedded as nanoseconds since the Unix epoch
(`Int`).  Go's `Time.Truncate(time.Second)` rounds down relative to the zero
time (year 1), which is second-aligned with the Unix epoch, so truncation to a
second boundary is floor division of epoch-nanoseconds; `Time.Unix()` is floor
division by 10^9, while Go's int64 `/` (used for `UnixNano()/1e6`) truncates
toward zero (`Int.tdiv`).
-/

/-- Embedding of a shopspring `decimal.Decimal`: the represented value is
`value * 10 ^ exp`. -/
structure GoDecimal where
  value : Int
  exp : Int
deriving DecidableEq, Repr

/-- `10 ^ k` as an integer scale factor. -/
def pow10 (k : Nat) : Int := 10 ^ k

namespace GoDecimal

/-- `decimal.NewFromInt`. -/
def NewFromInt (n : Int) : GoDecimal := ⟨n, 0⟩

/-- `Decimal.Mul`: coefficients multiply, exponents add (exact). -/
def Mul (a b : GoDecimal) : GoDecimal := ⟨a.value * b.value, a.exp + b.exp⟩

/-- `Decimal.Add`: rescale both operands to the smaller exponent, add
coefficients (exact). -/
def Add (a b : GoDecimal) : GoDecimal :=
  let e := min a.exp b.exp
  ⟨a.value * pow10 (a.exp - e).toNat + b.value * pow10 (b.exp - e).toNat, e⟩

/-- `Decimal.Floor`: for a negative exponent, floor-divide the coefficient by
the scale (big.Int `Div` is Euclidean division, i.e. floor for a positive
divisor); a non-negative exponent is already integral. -/
def Floor (d : GoDecimal) : GoDecimal :=
  if 0 ≤ d.exp then d
  else ⟨d.value / pow10 (-d.exp).toNat, 0⟩

/-- `Decimal.Ceil`: Euclidean quotient, plus one when the (non-negative)
remainder is non-zero — the ceiling for a positive divisor. -/
def Ceil (d : GoDecimal) : GoDecimal :=
  if 0 ≤ d.exp then d
  else
    let p := pow10 (-d.exp).toNat
    ⟨d.value / p + (if d.value % p = 0 then 0 else 1), 0⟩

/-- `Decimal.IntPart`: rescale to exponent 0 (truncating toward zero, big.Int
`Quo`) and take the coefficient. -/
def IntPart (d : GoDecimal) : Int :=
  if 0 ≤ d.exp then d.value * pow10 d.exp.toNat
  else Int.tdiv d.value (pow10 (-d.exp).toNat)

/-- The rational value represented by a decimal. -/
def toRat (d : GoDecimal) : ℚ := (d.value : ℚ) * (10 : ℚ) ^ d.exp

theorem toRat_Mul (a b : GoDecimal) : (a.Mul b).toRat = a.toRat * b.toRat := by
  simp only [Mul, toRat]
  rw [zpow_add₀ (by norm_num : (10 : ℚ) ≠ 0)]
  push_cast
  ring

theorem toRat_NewFromInt (n : Int) : (NewFromInt n).toRat = (n : ℚ) := by
  simp [NewFromInt, toRat]

theorem pow10_pos (k : Nat) : 0 < pow10 k := by
  unfold pow10
  positivity

theorem toRat_of_neg_exp (d : GoDecimal) (h : d.exp < 0) :
    d.toRat = (d.value : ℚ) / ((10 : ℚ) ^ (-d.exp).toNat) := by
  rw [toRat]
  generalize hk : (-d.exp).toNat = k
  have he : d.exp = -((k : ℕ) : ℤ) := by omega
  rw [he, zpow_neg, zpow_natCast, div_eq_mul_inv]

theorem toRat_of_nonneg_exp (d : GoDecimal) (h : 0 ≤ d.exp) :
    d.toRat = ((d.value * pow10 d.exp.toNat : Int) : ℚ) := by
  rw [toRat]
  generalize hk : d.exp.toNat = k
  have he : d.exp = ((k : ℕ) : ℤ) := by omega
  rw [he, zpow_natCast, pow10]
  push_cast
  ring

theorem floor_ratCast_div_pow10 (v : Int) (k : Nat) :
    ⌊(v : ℚ) / ((10 : ℚ) ^ k)⌋ = v / pow10 k := by
  have h := Rat.floor_intCast_div_natCast v (10 ^ k)
  push_cast at h
  rw [h]
  rfl

theorem ceil_ratCast_div_pow10 (v : Int) (k : Nat) :
    ⌈(v : ℚ) / ((10 : ℚ) ^ k)⌉ = v / pow10 k + (if v % pow10 k = 0 then 0 else 1) := by
  have hp : (0 : Int) < pow10 k := pow10_pos k
  have hpq : (0 : ℚ) < ((pow10 k : Int) : ℚ) := by exact_mod_cast hp
  have hq : v % pow10 k + pow10 k * (v / pow10 k) = v := Int.emod_add_ediv v (pow10 k)
  have hcast : ((10 : ℚ) ^ k) = ((pow10 k : Int) : ℚ) := by
    rw [pow10]; push_cast; ring
  rw [hcast, Int.ceil_eq_iff]
  by_cases hr : v % pow10 k = 0
  · have hv : v = pow10 k * (v / pow10 k) := by linarith [hq]
    have hx : (v : ℚ) / ((pow10 k : Int) : ℚ) = ((v / pow10 k : Int) : ℚ) := by
      rw [hv]
      push_cast
      field_simp
    rw [hx]
    simp only [hr, if_true, eq_self_iff_true]
    constructor
    · push_cast
      linarith
    · push_cast
      linarith
  · have hrpos : 0 < v % pow10 k := by
      have := Int.emod_nonneg v (ne_of_gt hp)
      omega
    have hrlt : v % pow10 k < pow10 k := Int.emod_lt_of_pos v hp
    have hvq : (v : ℚ) =
        ((pow10 k : Int) : ℚ) * ((v / pow10 k : Int) : ℚ) + ((v % pow10 k : Int) : ℚ) := by
      exact_mod_cast (by linarith [hq] : v = pow10 k * (v / pow10 k) + v % pow10 k)
    have hx : (v : ℚ) / ((pow10 k : Int) : ℚ) =
        ((v / pow10 k : Int) : ℚ) + ((v % pow10 k : Int) : ℚ) / ((pow10 k : Int) : ℚ) := by
      rw [hvq]
      field_simp
      ring
    have hfr0 : (0 : ℚ) < ((v % pow10 k : Int) : ℚ) / ((pow10 k : Int) : ℚ) :=
      div_pos (by exact_mod_cast hrpos) hpq
    have hfr1 : ((v % pow10 k : Int) : ℚ) / ((pow10 k : Int) : ℚ) ≤ 1 :=
      (div_le_one hpq).2 (by exact_mod_cast le_of_lt hrlt)
    rw [hx]
    simp only [hr, if_false]
    constructor
    · push_cast
      linarith
    · push_cast
      linarith

/-- `Ceil` followed by `IntPart` computes the mathematical ceiling of the
represented value. -/
theorem IntPart_Ceil (d : GoDecimal) : d.Ceil.IntPart = ⌈d.toRat⌉ := by
  by_cases h : 0 ≤ d.exp
  · rw [Ceil, if_pos h, IntPart, if_pos h, toRat_of_nonneg_exp d h, Int.ceil_intCast]
  · push_neg at h
    rw [toRat_of_neg_exp d h, ceil_ratCast_div_pow10]
    rw [Ceil, if_neg (by omega)]
    rw [IntPart]
    simp [pow10]

/-- `Floor` followed by `IntPart` computes the mathematical floor of the
represented value. -/
theorem IntPart_Floor (d : GoDecimal) : d.Floor.IntPart = ⌊d.toRat⌋ := by
  by_cases h : 0 ≤ d.exp
  · rw [Floor, if_pos h, IntPart, if_pos h, toRat_of_nonneg_exp d h, Int.floor_intCast]
  · push_neg at h
    rw [toRat_of_neg_exp d h, floor_ratCast_div_pow10]
    rw [Floor, if_neg (by omega)]
    rw [IntPart]
    simp [pow10]

end GoDecimal

/-- Trailing zeros of a fractional digit list, removed (shopspring trims
trailing zeros in `Decimal.String`). -/
def trimTrailingZeroChars (l : List Char) : List Char :=
  (l.reverse.dropWhile (fun c => c = '0')).reverse

/-- `Decimal.String`: render `value * 10 ^ exp` in plain decimal notation,
with the trailing zeros of the fractional part removed and the fractional
point omitted when the fractional part is empty. -/
def decimalString (d : GoDecimal) : String :=
  if 0 ≤ d.exp then toString (d.value * pow10 d.exp.toNat)
  else
    let k := (-d.exp).toNat
    let digits := (toString d.value.natAbs).toList
    let ipart :=
      if k < digits.length then String.mk (digits.take (digits.length - k)) else "0"
    let fpart :=
      if k < digits.length then trimTrailingZeroChars (digits.drop (digits.length - k))
      else trimTrailingZeroChars (List.replicate (k - digits.length) '0' ++ digits)
    let body := if fpart.isEmpty then ipart else ipart ++ "." ++ String.mk fpart
    if d.value < 0 then "-" ++ body else body

/-- Go `fmt %x` of a (math/big) integer: lowercase hex digits, a minus sign
for a negative value.  The builder prepends the literal 0x. -/
def goHex (n : Int) : String :=
  if n < 0 then "-" ++ String.mk (Nat.toDigits 16 n.natAbs)
  else String.mk (Nat.toDigits 16 n.natAbs)

/-! ### Domain model (src/models) -/

def OrderSideBuy : String := "BUY"

def OrderSideSell : String := "SELL"

def TimeInForceGTT : String := "GTT"

def TimeInForceFOK : String := "FOK"

def TimeInForceIOC : String := "IOC"

def OrderTypeLimit : String := "LIMIT"

/-- `models.StarknetDomain`. -/
structure StarknetDomain where
  Name : String
  Version : String
  ChainID : String
  Revision : String
deriving DecidableEq, Repr

/-- `models.TradingFeeModel`. -/
structure TradingFeeModel where
  Market : String
  MakerFeeRate : GoDecimal
  TakerFeeRate : GoDecimal
  BuilderFeeRate : GoDecimal
deriving DecidableEq, Repr

/-- `models.DefaultFees`: maker 0.0002, taker 0.0005, builder 0 (the
`decimal.NewFromFloat` calls produce exactly these decimal values). -/
def DefaultFees : TradingFeeModel :=
  { Market := "BTC-USD"
    MakerFeeRate := ⟨2, -4⟩
    TakerFeeRate := ⟨5, -4⟩
    BuilderFeeRate := ⟨0, 0⟩ }

/-- `models.L2ConfigModel` (the fields the builder reads). -/
structure L2ConfigModel where
  CollateralID : String
  CollateralResolution : Int
  SyntheticID : String
  SyntheticResolution : Int
deriving DecidableEq, Repr

/-- `models.MarketModel` (the fields the builder reads: display-only fields
such as asset names and precisions are never consulted by the pipeline). -/
structure MarketModel where
  Name : String
  L2Config : L2ConfigModel
deriving DecidableEq, Repr

/-- `models.Signature`: the two signature halves, already rendered 0x-hex. -/
structure Signature where
  R : String
  S : String
deriving DecidableEq, Repr

/-- `models.Settlement`. -/
structure Settlement where
  Signature : Signature
  StarkKey : String
  CollateralPosition : String
deriving DecidableEq, Repr

/-- `models.ConditionalTrigger` (never populated by either builder). -/
structure ConditionalTrigger where
  TriggerPrice : String
  TriggerPriceType : String
  Direction : String
  ExecutionPriceType : String
deriving DecidableEq, Repr

/-- `models.TpSlTrigger` (never populated by either builder). -/
structure TpSlTrigger where
  TriggerPrice : String
  TriggerPriceType : String
  Price : String
  PriceType : String
  Settlement : Settlement
deriving DecidableEq, Repr

/-- `models.TpSlTriggerParam` (decimal trigger parameters accepted by the
services builder; it currently never copies them into the order). -/
structure TpSlTriggerParam where
  TriggerPrice : GoDecimal
  TriggerPriceType : String
  Price : GoDecimal
  PriceType : String
deriving DecidableEq, Repr

/-- `models.PerpetualOrderModel`.  The Go field `Type` is embedded as
`OrderType` because `Type` is a Lean keyword. -/
structure PerpetualOrderModel where
  ID : String
  Market : String
  OrderType : String
  Side : String
  Qty : String
  Price : String
  TimeInForce : String
  ExpiryEpochMillis : Int
  Fee : String
  Nonce : String
  Settlement : Settlement
  ReduceOnly : Bool
  PostOnly : Bool
  SelfTradeProtectionLevel : String
  Trigger : Option ConditionalTrigger
  TpSlType : Option String
  TakeProfit : Option TpSlTrigger
  StopLoss : Option TpSlTrigger
  BuilderFee : Option String
  BuilderID : Option Int
  CancelID : Option String
deriving DecidableEq, Repr

/-! ### Trading account and fee cache (client package) -/

/-- `client.StarkPerpetualAccount`.  The Go `map[string]models.TradingFeeModel`
fee cache is embedded as an association list with unique keys assumed by
lookup; the `sync.RWMutex` guards concurrent access and has no sequential
content. -/
structure StarkPerpetualAccount where
  vault : Nat
  privateKey : String
  publicKey : String
  apiKey : String
  tradingFee : List (String × TradingFeeModel)

/-- `(*StarkPerpetualAccount).Vault`. -/
def StarkPerpetualAccount.Vault (s : StarkPerpetualAccount) : Nat := s.vault

/-- `(*StarkPerpetualAccount).PublicKey`. -/
def StarkPerpetualAccount.PublicKey (s : StarkPerpetualAccount) : String := s.publicKey

/-- `(*StarkPerpetualAccount).GetTradingFee`: the cached entry for the market
name when present, `DefaultFees` otherwise.  A pure read of the cache. -/
def StarkPerpetualAccount.GetTradingFee (s : StarkPerpetualAccount)
    (marketName : String) : TradingFeeModel :=
  match s.tradingFee.lookup marketName with
  | some fee => fee
  | none => DefaultFees

/-! ### Expiry handling and the hash call (orders/builder.go, HashOrder) -/

def nsPerSecond : Int := 1000000000

/-- The fixed 14-day buffer added before hashing, in nanoseconds. -/
def expirationBufferNS : Int := 14 * 24 * 3600 * nsPerSecond

/-- The expiration fed to the hash primitive: add the 14-day buffer, truncate
to the second (floor, `time.Truncate`), add one second when the truncation
dropped anything (`After` check), convert to Unix seconds. -/
def hashExpirationSeconds (t : Int) : Int :=
  let b := t + expirationBufferNS
  let r := (b / nsPerSecond) * nsPerSecond
  let r2 := if r < b then r + nsPerSecond else r
  r2 / nsPerSecond

/-- Go `t.UnixNano() / int64(time.Millisecond)`: truncated (toward zero)
division of epoch-nanoseconds by 10^6. -/
def unixMillis (t : Int) : Int := Int.tdiv t 1000000

/-- `HashOrderParams` (both implementations declare the identical struct). -/
structure HashOrderParams where
  AmountSynthetic : Int
  SyntheticAssetID : String
  AmountCollateral : Int
  CollateralAssetID : String
  MaxFee : Int
  Nonce : Int
  PositionID : Int
  ExpirationTimestamp : Int
  PublicKey : String
  StarknetDomain : StarknetDomain
deriving Repr

/-- The exact argument list `HashOrder` hands to `client.GetOrderHash`, in
source order: every numeric field rendered base-10, asset ids and the public
key passed through as hex strings, the fee asset id repeating the collateral
asset id, and the four domain strings. -/
def hashOrderArgs (p : HashOrderParams) : List String :=
  [toString p.PositionID,
   p.SyntheticAssetID,
   toString p.AmountSynthetic,
   p.CollateralAssetID,
   toString p.AmountCollateral,
   p.CollateralAssetID,
   toString p.MaxFee,
   toString (hashExpirationSeconds p.ExpirationTimestamp),
   toString p.Nonce,
   p.PublicKey,
   p.StarknetDomain.Name,
   p.StarknetDomain.Version,
   p.StarknetDomain.ChainID,
   p.StarknetDomain.Revision]

/-- `HashOrder`, parameterised by the external hashing primitive
`client.GetOrderHash` (the primitive itself is not part of the embedded
source; the pipeline only owes it this exact call). -/
def HashOrder (getHash : List String → Except String String)
    (p : HashOrderParams) : Except String String :=
  match getHash (hashOrderArgs p) with
  | Except.error e => Except.error ("failed to compute order hash: " ++ e)
  | Except.ok h => Except.ok h

/-! ### Quantization (orders/builder.go lines 48-83, identical in the
services copy) -/

/-- is_buying_synthetic: the side equals `models.OrderSideBuy`. -/
def isBuyingSynthetic (side : String) : Bool := side == OrderSideBuy

/-- taker fee rate plus the optional builder fee. -/
def totalFee (takerFeeRate : GoDecimal) (builderFee : Option GoDecimal) : GoDecimal :=
  match builderFee with
  | none => takerFeeRate
  | some b => takerFeeRate.Add b

/-- Round the scaled decimal per side (ceiling when buying, floor when
selling) and truncate to an integer. -/
def starkAmount (isBuying : Bool) (scaled : GoDecimal) : Int :=
  (if isBuying then scaled.Ceil else scaled.Floor).IntPart

/-- Quantized collateral before sign adjustment. -/
def starkCollateralAmount (isBuying : Bool) (collateralAmount : GoDecimal)
    (cres : Int) : Int :=
  starkAmount isBuying (collateralAmount.Mul (GoDecimal.NewFromInt cres))

/-- Quantized synthetic amount before sign adjustment. -/
def starkSyntheticAmount (isBuying : Bool) (syntheticAmount : GoDecimal)
    (sres : Int) : Int :=
  starkAmount isBuying (syntheticAmount.Mul (GoDecimal.NewFromInt sres))

/-- Quantized fee: always rounded up, regardless of side. -/
def starkFeeAmount (feeAmount : GoDecimal) (cres : Int) : Int :=
  ((feeAmount.Mul (GoDecimal.NewFromInt cres)).Ceil).IntPart

/-- Sign adjustment of the collateral integer: negated when buying. -/
def signedCollateral (isBuying : Bool) (v : Int) : Int :=
  if isBuying then -v else v

/-- Sign adjustment of the synthetic integer: negated when selling. -/
def signedSynthetic (isBuying : Bool) (v : Int) : Int :=
  if isBuying then v else -v

/-! ### The exported builder (src/orders/builder.go, CreateOrderObject) -/

/-- `orders.CreateOrderObjectParams`.  `ExpireTime` and `Nonce` are pointers
in Go (`nil` = absent); the caller-supplied signer closure is a field. -/
structure CreateOrderObjectParams where
  Market : MarketModel
  Account : StarkPerpetualAccount
  SyntheticAmount : GoDecimal
  Price : GoDecimal
  Side : String
  Signer : String → Except String (Int × Int)
  StarknetDomain : StarknetDomain
  ExpireTime : Option Int
  PostOnly : Bool
  PreviousOrderExternalID : Option String
  OrderExternalID : Option String
  TimeInForce : String
  SelfTradeProtectionLevel : String
  Nonce : Option Int
  BuilderFee : Option GoDecimal
  BuilderID : Option Int

/-- builder.go lines 37-40: a nil expire time defaults to one hour after the
current wall-clock instant (`time.Now()`), threaded here as `now`. -/
def resolvedExpireTime (now : Int) (p : CreateOrderObjectParams) : Int :=
  match p.ExpireTime with
  | none => now + 3600 * nsPerSecond
  | some t => t

/-- The `HashOrderParams` record CreateOrderObject assembles (builder.go
lines 85-96). -/
def builderHashParams (p : CreateOrderObjectParams) (expireTime nonce : Int) :
    HashOrderParams :=
  let isBuying := isBuyingSynthetic p.Side
  let collateralAmount := p.SyntheticAmount.Mul p.Price
  let feeAmount := (totalFee DefaultFees.TakerFeeRate p.BuilderFee).Mul collateralAmount
  { AmountSynthetic :=
      signedSynthetic isBuying
        (starkSyntheticAmount isBuying p.SyntheticAmount p.Market.L2Config.SyntheticResolution)
    SyntheticAssetID := p.Market.L2Config.SyntheticID
    AmountCollateral :=
      signedCollateral isBuying
        (starkCollateralAmount isBuying collateralAmount p.Market.L2Config.CollateralResolution)
    CollateralAssetID := p.Market.L2Config.CollateralID
    MaxFee := starkFeeAmount feeAmount p.Market.L2Config.CollateralResolution
    Nonce := nonce
    PositionID := (p.Account.Vault : Int)
    ExpirationTimestamp := expireTime
    PublicKey := p.Account.PublicKey
    StarknetDomain := p.StarknetDomain }

/-- `orders.CreateOrderObject`, parameterised by the external hashing
primitive (`client.GetOrderHash`) and by the wall clock (`now`, read only when
`ExpireTime` is absent).  Faithful to builder.go: no side or time-in-force
validation, fees taken from the process-wide `models.DefaultFees`, the fee
field of the outgoing order rendering the taker rate alone. -/
def CreateOrderObject (getHash : List String → Except String String)
    (now : Int) (p : CreateOrderObjectParams) :
    Except String PerpetualOrderModel :=
  let expireTime := resolvedExpireTime now p
  match p.Nonce with
  | none => Except.error ("nonce must be provided")
  | some nonce =>
    match HashOrder getHash (builderHashParams p expireTime nonce) with
    | Except.error e => Except.error ("hashing order failed: " ++ e)
    | Except.ok order_hash =>
      match p.Signer order_hash with
      | Except.error e => Except.error ("signer function failed: " ++ e)
      | Except.ok (sig_r, sig_s) =>
        let settlement : Settlement :=
          { Signature := { R := "0x" ++ goHex sig_r, S := "0x" ++ goHex sig_s }
            StarkKey := p.Account.PublicKey
            CollateralPosition := toString (p.Account.Vault : Int) }
        let orderId :=
          match p.OrderExternalID with
          | none => order_hash
          | some i => i
        Except.ok
          { ID := orderId
            Market := p.Market.Name
            OrderType := OrderTypeLimit
            Side := p.Side
            Qty := decimalString p.SyntheticAmount
            Price := decimalString p.Price
            TimeInForce := p.TimeInForce
            ExpiryEpochMillis := unixMillis expireTime
            Fee := decimalString DefaultFees.TakerFeeRate
            Nonce := toString nonce
            Settlement := settlement
            ReduceOnly := false
            PostOnly := p.PostOnly
            SelfTradeProtectionLevel := p.SelfTradeProtectionLevel
            Trigger := none
            TpSlType := none
            TakeProfit := none
            StopLoss := none
            BuilderFee := Option.map decimalString p.BuilderFee
            BuilderID := p.BuilderID
            CancelID := p.PreviousOrderExternalID }

/-! ### The services builder (services package, createOrderObject) -/

/-- `services.createOrderObjectParams`: `ExpireTime` and `Nonce` are plain
values here, the order type is caller-chosen, and TP/SL parameters exist. -/
structure SvcCreateOrderObjectParams where
  Market : MarketModel
  Account : StarkPerpetualAccount
  SyntheticAmount : GoDecimal
  Price : GoDecimal
  Side : String
  OrderType : String
  StarknetDomain : StarknetDomain
  ExpireTime : Int
  PostOnly : Bool
  ReduceOnly : Bool
  PreviousOrderExternalID : Option String
  OrderExternalID : Option String
  TimeInForce : String
  SelfTradeProtectionLevel : String
  Nonce : Int
  BuilderFee : Option GoDecimal
  BuilderID : Option Int
  TpSlType : Option String
  TakeProfit : Option TpSlTriggerParam
  StopLoss : Option TpSlTriggerParam

/-- Go's zero `time.Time` (year 1, January 1, UTC) in nanoseconds since the
Unix epoch; `ExpireTime.IsZero()` compares against this instant. -/
def goZeroTimeNS : Int := -62135596800 * 1000000000

/-- The `HashOrderParams` the services builder assembles; it reads the fee
rate from the account's cache instead of `DefaultFees`. -/
def svcHashParams (p : SvcCreateOrderObjectParams) : HashOrderParams :=
  let isBuying := isBuyingSynthetic p.Side
  let fees := p.Account.GetTradingFee p.Market.Name
  let collateralAmount := p.SyntheticAmount.Mul p.Price
  let feeAmount := (totalFee fees.TakerFeeRate p.BuilderFee).Mul collateralAmount
  { AmountSynthetic :=
      signedSynthetic isBuying
        (starkSyntheticAmount isBuying p.SyntheticAmount p.Market.L2Config.SyntheticResolution)
    SyntheticAssetID := p.Market.L2Config.SyntheticID
    AmountCollateral :=
      signedCollateral isBuying
        (starkCollateralAmount isBuying collateralAmount p.Market.L2Config.CollateralResolution)
    CollateralAssetID := p.Market.L2Config.CollateralID
    MaxFee := starkFeeAmount feeAmount p.Market.L2Config.CollateralResolution
    Nonce := p.Nonce
    PositionID := (p.Account.Vault : Int)
    ExpirationTimestamp := p.ExpireTime
    PublicKey := p.Account.PublicKey
    StarknetDomain := p.StarknetDomain }

/-- `services.createOrderObject`, parameterised by the external hashing
primitive and by the account-bound signer (`params.Account.Sign`, whose
underlying `client.SignMessage` is an external primitive).  Faithful to the
source: side, time-in-force (FOK explicitly unsupported) and expire-time
validations run before any hashing or signing. -/
def svcCreateOrderObject (getHash : List String → Except String String)
    (sign : String → Except String (Int × Int))
    (p : SvcCreateOrderObjectParams) : Except String PerpetualOrderModel :=
  if p.Side ≠ OrderSideBuy ∧ p.Side ≠ OrderSideSell then
    Except.error ("unexpected order side value: " ++ p.Side)
  else if p.TimeInForce = TimeInForceFOK then
    Except.error ("unexpected time in force value: FOK is not supported")
  else if p.TimeInForce ≠ TimeInForceGTT ∧ p.TimeInForce ≠ TimeInForceIOC then
    Except.error ("unexpected time in force value: " ++ p.TimeInForce)
  else if p.ExpireTime = goZeroTimeNS then
    Except.error ("expire_time must be provided")
  else
    let fees := p.Account.GetTradingFee p.Market.Name
    match HashOrder getHash (svcHashParams p) with
    | Except.error e => Except.error ("hashing order failed: " ++ e)
    | Except.ok order_hash =>
      match sign order_hash with
      | Except.error e => Except.error ("signer function failed: " ++ e)
      | Except.ok (sig_r, sig_s) =>
        let settlement : Settlement :=
          { Signature := { R := "0x" ++ goHex sig_r, S := "0x" ++ goHex sig_s }
            StarkKey := p.Account.PublicKey
            CollateralPosition := toString (p.Account.Vault : Int) }
        let orderId :=
          match p.OrderExternalID with
          | none => order_hash
          | some i => i
        Except.ok
          { ID := orderId
            Market := p.Market.Name
            OrderType := p.OrderType
            Side := p.Side
            Qty := decimalString p.SyntheticAmount
            Price := decimalString p.Price
            TimeInForce := p.TimeInForce
            ExpiryEpochMillis := unixMillis p.ExpireTime
            Fee := decimalString fees.TakerFeeRate
            Nonce := toString p.Nonce
            Settlement := settlement
            ReduceOnly := p.ReduceOnly
            PostOnly := p.PostOnly
            SelfTradeProtectionLevel := p.SelfTradeProtectionLevel
            Trigger := none
            TpSlType := p.TpSlType
            TakeProfit := none
            StopLoss := none
            BuilderFee := Option.map decimalString p.BuilderFee
            BuilderID := p.BuilderID
            CancelID := p.PreviousOrderExternalID }

/-! ### The concrete reference scenario (src/orders_test.go fixtures) -/

/-- The BTC-USD market fixture of the repository's order tests. -/
def testMarket : MarketModel :=
  { Name := "BTC-USD"
    L2Config :=
      { CollateralID := "0x31857064564ed0ff978e687456963cba09c2c6985d8f9300a1de4962fafa054"
        CollateralResolution := 1000000
        SyntheticID := "0x4254432d3600000000000000000000"
        SyntheticResolution := 1000000 } }

/-- The account fixture (vault 10002). -/
def testAccount : StarkPerpetualAccount :=
  { vault := 10002
    privateKey := "0x7a7ff6fd3cab02ccdcd4a572563f5976f8976899b03a39773795a3c486d4986"
    publicKey := "0x61c5e7e8339b7d56f197f54ea91b776776690e3232313de0f2ecbd0ef76f466"
    apiKey := "test-api-key"
    tradingFee := [] }

/-- The Starknet domain fixture. -/
def testDomain : StarknetDomain :=
  { Name := "Perpetuals", Version := "v0", ChainID := "SN_SEPOLIA", Revision := "1" }

/-- A deterministic stand-in signer (the claims under study do not constrain
the signature values themselves). -/
def dummySigner : String → Except String (Int × Int) := fun _ => Except.ok (1, 2)

/-- 2024-01-05 02:08:57 UTC (the frozen test time plus one hour), in
nanoseconds since the Unix epoch. -/
def c1ExpireTimeNS : Int := 1704420537 * 1000000000

/-- The reference order hash recorded by the repository's test suite for the
scenario below. -/
def c1ReferenceHash : String :=
  "529621978301228831750156704671293558063128025271079340676658105549022202327"

/-- The argument list the reference scenario feeds to the hash primitive. -/
def c1HashArgs : List String :=
  ["10002",
   "0x4254432d3600000000000000000000",
   "-1000",
   "0x31857064564ed0ff978e687456963cba09c2c6985d8f9300a1de4962fafa054",
   "43445116",
   "0x31857064564ed0ff978e687456963cba09c2c6985d8f9300a1de4962fafa054",
   "21723",
   "1705630137",
   "1473459052",
   "0x61c5e7e8339b7d56f197f54ea91b776776690e3232313de0f2ecbd0ef76f466",
   "Perpetuals",
   "v0",
   "SN_SEPOLIA",
   "1"]

/-- Modelled from the spec: `client.GetOrderHash`, the external Starknet
order-hash primitive, is consumed but not defined under src/ (only its
declaration site and callers are).  The spec describes it as a deterministic
domain-separated hash returning a decimal-string big integer, and records its
observed output for the reference scenario; any other input is mapped to a
distinct deterministic placeholder. -/
def GetOrderHash (args : List String) : Except String String :=
  if args = c1HashArgs then Except.ok c1ReferenceHash
  else Except.ok (String.intercalate "," args)

/-- The reference scenario's builder parameters: Sell 0.001 BTC-USD at
43445.1168, GTT, nonce 1473459052, no optional fields. -/
def c1Params : CreateOrderObjectParams :=
  { Market := testMarket
    Account := testAccount
    SyntheticAmount := ⟨100000, -8⟩
    Price := ⟨4344511680000, -8⟩
    Side := OrderSideSell
    Signer := dummySigner
    StarknetDomain := testDomain
    ExpireTime := some c1ExpireTimeNS
    PostOnly := false
    PreviousOrderExternalID := none
    OrderExternalID := none
    TimeInForce := TimeInForceGTT
    SelfTradeProtectionLevel := "ACCOUNT"
    Nonce := some 1473459052
    BuilderFee := none
    BuilderID := none }

/-- The order the reference scenario produces (the settlement signature comes
from the deterministic stand-in signer). -/
def c1Order : PerpetualOrderModel :=
  { ID := c1ReferenceHash
    Market := "BTC-USD"
    OrderType := "LIMIT"
    Side := "SELL"
    Qty := "0.001"
    Price := "43445.1168"
    TimeInForce := "GTT"
    ExpiryEpochMillis := 1704420537000
    Fee := "0.0005"
    Nonce := "1473459052"
    Settlement :=
      { Signature := { R := "0x1", S := "0x2" }
        StarkKey := "0x61c5e7e8339b7d56f197f54ea91b776776690e3232313de0f2ecbd0ef76f466"
        CollateralPosition := "10002" }
    ReduceOnly := false
    PostOnly := false
    SelfTradeProtectionLevel := "ACCOUNT"
    Trigger := none
    TpSlType := none
    TakeProfit := none
    StopLoss := none
    BuilderFee := none
    BuilderID := none
    CancelID := none }

/-! ### Derived forms of the quantization (used by the claims) -/

theorem starkAmount_true (d : GoDecimal) : starkAmount true d = ⌈d.toRat⌉ := by
  simp [starkAmount, GoDecimal.IntPart_Ceil]

theorem starkAmount_false (d : GoDecimal) : starkAmount false d = ⌊d.toRat⌋ := by
  simp [starkAmount, GoDecimal.IntPart_Floor]

theorem toRat_scaled (d : GoDecimal) (c : Int) :
    (d.Mul (GoDecimal.NewFromInt c)).toRat = d.toRat * (c : ℚ) := by
  rw [GoDecimal.toRat_Mul, GoDecimal.toRat_NewFromInt]

theorem starkCollateralAmount_true (d : GoDecimal) (c : Int) :
    starkCollateralAmount true d c = ⌈d.toRat * (c : ℚ)⌉ := by
  rw [starkCollateralAmount, starkAmount_true, toRat_scaled]

theorem starkCollateralAmount_false (d : GoDecimal) (c : Int) :
    starkCollateralAmount false d c = ⌊d.toRat * (c : ℚ)⌋ := by
  rw [starkCollateralAmount, starkAmount_false, toRat_scaled]

theorem starkSyntheticAmount_true (d : GoDecimal) (c : Int) :
    starkSyntheticAmount true d c = ⌈d.toRat * (c : ℚ)⌉ := by
  rw [starkSyntheticAmount, starkAmount_true, toRat_scaled]

theorem starkSyntheticAmount_false (d : GoDecimal) (c : Int) :
    starkSyntheticAmount false d c = ⌊d.toRat * (c : ℚ)⌋ := by
  rw [starkSyntheticAmount, starkAmount_false, toRat_scaled]

theorem starkFeeAmount_eq (d : GoDecimal) (c : Int) :
    starkFeeAmount d c = ⌈d.toRat * (c : ℚ)⌉ := by
  rw [starkFeeAmount, GoDecimal.IntPart_Ceil, toRat_scaled]

theorem isBuying_buy : isBuyingSynthetic OrderSideBuy = true := by decide

theorem isBuying_sell : isBuyingSynthetic OrderSideSell = false := by decide

deriving instance DecidableEq for Except

/-! ### Claim theorems -/

/-- C1: for the BTC-USD reference scenario (collateral and synthetic
resolution 10^6, Sell 0.001 synthetic at price 43445.1168, default taker fee
0.0005, no builder fee, nonce 1473459052), the pipeline derives
collateralAmount 43.4451168, floored-scaled collateral 43445116, synthetic
integer 1000 negated to -1000, fee integer ceiled to 21723, and the order has
qty "0.001", price "43445.1168", fee "0.0005", side "SELL" and, with
orderExternalId omitted, id equal to the reference hash. -/
theorem c1_reference_scenario :
    (c1Params.SyntheticAmount.Mul c1Params.Price).toRat = 434451168 / 10000000
    ∧ starkCollateralAmount (isBuyingSynthetic c1Params.Side)
        (c1Params.SyntheticAmount.Mul c1Params.Price) 1000000 = 43445116
    ∧ starkSyntheticAmount (isBuyingSynthetic c1Params.Side)
        c1Params.SyntheticAmount 1000000 = 1000
    ∧ signedSynthetic (isBuyingSynthetic c1Params.Side)
        (starkSyntheticAmount (isBuyingSynthetic c1Params.Side)
          c1Params.SyntheticAmount 1000000) = -1000
    ∧ starkFeeAmount
        ((totalFee DefaultFees.TakerFeeRate none).Mul
          (c1Params.SyntheticAmount.Mul c1Params.Price)) 1000000 = 21723
    ∧ CreateOrderObject GetOrderHash 0 c1Params = Except.ok c1Order
    ∧ c1Order.Qty = "0.001"
    ∧ c1Order.Price = "43445.1168"
    ∧ c1Order.Fee = "0.0005"
    ∧ c1Order.Side = "SELL"
    ∧ c1Params.OrderExternalID = none
    ∧ c1Order.ID = c1ReferenceHash := by
  refine ⟨?_, ?_, ?_, ?_, ?_, ?_, rfl, rfl, rfl, rfl, rfl, rfl⟩
  · norm_num [c1Params, GoDecimal.toRat, GoDecimal.Mul]
  · decide
  · decide
  · decide
  · decide
  · decide

/-- C2: for either side, the quantized amounts before sign adjustment bound
the exact scaled values from the correct direction — ceiling for Buy, floor
for Sell — and the quantized fee dominates the exact scaled fee amount
independently of the side (the fee quantization never consults the side). -/
theorem c2_quantization_rounding (side : String) (sa price takerFeeRate : GoDecimal)
    (builderFee : Option GoDecimal) (cres sres : Int)
    (hside : side = OrderSideBuy ∨ side = OrderSideSell)
    (hsa : 0 < sa.toRat) (hprice : 0 < price.toRat)
    (hcres : 0 < cres) (hsres : 0 < sres) :
    (side = OrderSideBuy →
      sa.toRat * price.toRat * (cres : ℚ) ≤
          (starkCollateralAmount (isBuyingSynthetic side) (sa.Mul price) cres : ℚ)
        ∧ sa.toRat * (sres : ℚ) ≤ (starkSyntheticAmount (isBuyingSynthetic side) sa sres : ℚ))
    ∧ (side = OrderSideSell →
        (starkCollateralAmount (isBuyingSynthetic side) (sa.Mul price) cres : ℚ) ≤
            sa.toRat * price.toRat * (cres : ℚ)
        ∧ (starkSyntheticAmount (isBuyingSynthetic side) sa sres : ℚ) ≤ sa.toRat * (sres : ℚ))
    ∧ ((totalFee takerFeeRate builderFee).Mul (sa.Mul price)).toRat * (cres : ℚ) ≤
        (starkFeeAmount ((totalFee takerFeeRate builderFee).Mul (sa.Mul price)) cres : ℚ) := by
  refine ⟨?_, ?_, ?_⟩
  · intro h
    subst h
    rw [isBuying_buy, starkCollateralAmount_true, starkSyntheticAmount_true,
      GoDecimal.toRat_Mul]
    exact ⟨Int.le_ceil _, Int.le_ceil _⟩
  · intro h
    subst h
    rw [isBuying_sell, starkCollateralAmount_false, starkSyntheticAmount_false,
      GoDecimal.toRat_Mul]
    exact ⟨Int.floor_le _, Int.floor_le _⟩
  · rw [starkFeeAmount_eq]
    exact Int.le_ceil _

/-- C2 witness: the theorem applied to the Sell side at unit amounts. -/
theorem c2_quantization_rounding_witness :
    0 < (GoDecimal.mk 1 0).toRat
    ∧ (starkCollateralAmount (isBuyingSynthetic OrderSideSell)
          ((GoDecimal.mk 1 0).Mul (GoDecimal.mk 1 0)) 1 : ℚ) ≤
        (GoDecimal.mk 1 0).toRat * (GoDecimal.mk 1 0).toRat * (1 : ℚ) := by
  have h0 : 0 < (GoDecimal.mk 1 0).toRat := by simp [GoDecimal.toRat]
  exact ⟨h0,
    ((c2_quantization_rounding OrderSideSell ⟨1, 0⟩ ⟨1, 0⟩ ⟨5, -4⟩ none 1 1
      (Or.inr rfl) h0 h0 (by decide) (by decide)).2.1 rfl).1⟩

/-- Exactly one of a (signed collateral, signed synthetic) pair is strictly
negative. -/
def exactlyOneNegative (c s : Int) : Prop :=
  (c < 0 ∧ ¬ s < 0) ∨ (¬ c < 0 ∧ s < 0)

instance (c s : Int) : Decidable (exactlyOneNegative c s) := by
  unfold exactlyOneNegative
  infer_instance

theorem signedCollateral_true (v : Int) : signedCollateral true v = -v := rfl

theorem signedCollateral_false (v : Int) : signedCollateral false v = v := rfl

theorem signedSynthetic_true (v : Int) : signedSynthetic true v = v := rfl

theorem signedSynthetic_false (v : Int) : signedSynthetic false v = -v := rfl

/-- C3 (amended): with a valid side, positive amounts, price and resolutions,
the sign adjustment negates the collateral integer for Buy and the synthetic
integer for Sell, and exactly one of the two signed integers is negative
provided that, for Sell, `syntheticAmount * syntheticResolution ≥ 1` (when
that product lies below 1 its floor is 0 and the negated synthetic integer is
0, not negative). -/
theorem c3_sign_adjustment (side : String) (sa price : GoDecimal) (cres sres : Int)
    (hside : side = OrderSideBuy ∨ side = OrderSideSell)
    (hsa : 0 < sa.toRat) (hprice : 0 < price.toRat)
    (hcres : 0 < cres) (hsres : 0 < sres)
    (hsell : side = OrderSideSell → 1 ≤ sa.toRat * (sres : ℚ)) :
    exactlyOneNegative
      (signedCollateral (isBuyingSynthetic side)
        (starkCollateralAmount (isBuyingSynthetic side) (sa.Mul price) cres))
      (signedSynthetic (isBuyingSynthetic side)
        (starkSyntheticAmount (isBuyingSynthetic side) sa sres))
    ∧ (side = OrderSideBuy →
        signedCollateral (isBuyingSynthetic side)
          (starkCollateralAmount (isBuyingSynthetic side) (sa.Mul price) cres) < 0)
    ∧ (side = OrderSideSell →
        signedSynthetic (isBuyingSynthetic side)
          (starkSyntheticAmount (isBuyingSynthetic side) sa sres) < 0) := by
  have hcq : (0 : ℚ) < (cres : ℚ) := by exact_mod_cast hcres
  have hsq : (0 : ℚ) < (sres : ℚ) := by exact_mod_cast hsres
  rcases hside with h | h
  · subst h
    rw [isBuying_buy, starkCollateralAmount_true, starkSyntheticAmount_true]
    have hc : 0 < ⌈(sa.Mul price).toRat * (cres : ℚ)⌉ := by
      rw [Int.ceil_pos, GoDecimal.toRat_Mul]
      positivity
    have hs : 0 < ⌈sa.toRat * (sres : ℚ)⌉ := by
      rw [Int.ceil_pos]
      positivity
    refine ⟨Or.inl ⟨?_, ?_⟩, fun _ => ?_, fun hctr => ?_⟩
    · rw [signedCollateral_true]
      omega
    · rw [signedSynthetic_true]
      omega
    · rw [signedCollateral_true]
      omega
    · exact absurd hctr (by decide)
  · subst h
    rw [isBuying_sell, starkCollateralAmount_false, starkSyntheticAmount_false]
    have hc : 0 ≤ ⌊(sa.Mul price).toRat * (cres : ℚ)⌋ := by
      rw [Int.floor_nonneg, GoDecimal.toRat_Mul]
      positivity
    have hs : 1 ≤ ⌊sa.toRat * (sres : ℚ)⌋ := Int.le_floor.2 (by exact_mod_cast hsell rfl)
    refine ⟨Or.inr ⟨?_, ?_⟩, fun hctr => ?_, fun _ => ?_⟩
    · rw [signedCollateral_false]
      omega
    · rw [signedSynthetic_false]
      omega
    · exact absurd hctr (by decide)
    · rw [signedSynthetic_false]
      omega

/-- C3 counterexample: Sell 0.5 synthetic with synthetic resolution 1 (price
1, collateral resolution 1) is a valid input of the claim — side Sell,
positive amount, price and resolutions — yet both signed quantized integers
are 0, so it is false that exactly one of them is negative. -/
theorem c3_counterexample :
    0 < (GoDecimal.mk 5 (-1)).toRat
    ∧ 0 < (GoDecimal.mk 1 0).toRat
    ∧ ¬ exactlyOneNegative
        (signedCollateral (isBuyingSynthetic OrderSideSell)
          (starkCollateralAmount (isBuyingSynthetic OrderSideSell)
            ((GoDecimal.mk 5 (-1)).Mul (GoDecimal.mk 1 0)) 1))
        (signedSynthetic (isBuyingSynthetic OrderSideSell)
          (starkSyntheticAmount (isBuyingSynthetic OrderSideSell)
            (GoDecimal.mk 5 (-1)) 1)) := by
  refine ⟨?_, ?_, ?_⟩
  · norm_num [GoDecimal.toRat]
  · norm_num [GoDecimal.toRat]
  · decide

/-- C3 witness: the amended theorem applied to a Sell at unit amounts, where
the negated synthetic integer is indeed the negative one. -/
theorem c3_sign_adjustment_witness :
    signedSynthetic (isBuyingSynthetic OrderSideSell)
      (starkSyntheticAmount (isBuyingSynthetic OrderSideSell) (GoDecimal.mk 1 0) 1) < 0 := by
  have h0 : 0 < (GoDecimal.mk 1 0).toRat := by simp [GoDecimal.toRat]
  exact (c3_sign_adjustment OrderSideSell ⟨1, 0⟩ ⟨1, 0⟩ 1 1 (Or.inr rfl) h0 h0
    (by decide) (by decide) (fun _ => by simp [GoDecimal.toRat])).2.2 rfl

theorem hashExpirationSeconds_eq (t : Int) :
    hashExpirationSeconds t =
      (if ((t + expirationBufferNS) / nsPerSecond) * nsPerSecond < t + expirationBufferNS
       then ((t + expirationBufferNS) / nsPerSecond) * nsPerSecond + nsPerSecond
       else ((t + expirationBufferNS) / nsPerSecond) * nsPerSecond) / nsPerSecond := rfl

/-- C4: for a supplied expire time `t`, the seconds value hashed is the
buffered instant `t + 14 days` rounded up to the next whole second (the two
bounds characterise that ceiling: it is reached at or above the buffered
instant, within one second of it, and on a second boundary), it is what the
hash argument list carries at position 7, while any successfully built
order carries the original, non-buffered `t` truncated to epoch
milliseconds. -/
theorem c4_expiry_normalization (t : Int) :
    (t + expirationBufferNS ≤ nsPerSecond * hashExpirationSeconds t
      ∧ nsPerSecond * hashExpirationSeconds t < t + expirationBufferNS + nsPerSecond)
    ∧ (∀ hp : HashOrderParams, hp.ExpirationTimestamp = t →
        (hashOrderArgs hp)[7]? = some (toString (hashExpirationSeconds t)))
    ∧ (∀ (getHash : List String → Except String String) (now : Int)
        (p : CreateOrderObjectParams) (o : PerpetualOrderModel),
        p.ExpireTime = some t → CreateOrderObject getHash now p = Except.ok o →
        o.ExpiryEpochMillis = unixMillis t) := by
  refine ⟨?_, ?_, ?_⟩
  · rw [hashExpirationSeconds_eq]
    unfold expirationBufferNS nsPerSecond
    split <;> omega
  · intro hp h
    simp [hashOrderArgs, h]
  · intro getHash now p o hpt hrun
    cases hn : p.Nonce with
    | none => simp [CreateOrderObject, hn] at hrun
    | some n =>
      rcases hh : HashOrder getHash (builderHashParams p (resolvedExpireTime now p) n)
        with e | hsh
      · simp [CreateOrderObject, hn, hh] at hrun
      · rcases hs : p.Signer hsh with e | rs
        · simp [CreateOrderObject, hn, hh, hs] at hrun
        · obtain ⟨r, s⟩ := rs
          simp only [CreateOrderObject, hn, hh, hs, Except.ok.injEq] at hrun
          rw [← hrun]
          simp [resolvedExpireTime, hpt]

/-- C4 witness: the reference scenario's expire time, hash parameter record
and successful build. -/
theorem c4_expiry_normalization_witness :
    (c1ExpireTimeNS + expirationBufferNS ≤ nsPerSecond * hashExpirationSeconds c1ExpireTimeNS)
    ∧ (hashOrderArgs (builderHashParams c1Params c1ExpireTimeNS 1473459052))[7]?
        = some (toString (hashExpirationSeconds c1ExpireTimeNS))
    ∧ c1Order.ExpiryEpochMillis = unixMillis c1ExpireTimeNS := by
  have h := c4_expiry_normalization c1ExpireTimeNS
  exact ⟨h.1.1,
    h.2.1 (builderHashParams c1Params c1ExpireTimeNS 1473459052) rfl,
    h.2.2 GetOrderHash 0 c1Params c1Order rfl (by decide)⟩

/-- The hash-call contract as the specification words it: positionId,
syntheticAssetId, signed synthetic amount, collateralAssetId, signed
collateral amount, feeAssetId equal to the collateral asset id, fee amount,
expirationSeconds, nonce, publicKey, then the four domain strings; numeric
fields rendered base-10 decimal, asset identifiers and the public key passed
as hex strings. -/
def specComputeHashArgs (positionId : Int) (syntheticAssetId : String)
    (syntheticAmountSigned : Int) (collateralAssetId : String)
    (collateralAmountSigned : Int) (feeAmount : Int)
    (expirationSeconds : Int) (nonce : Int) (publicKey : String)
    (domain : StarknetDomain) : List String :=
  [toString positionId,
   syntheticAssetId,
   toString syntheticAmountSigned,
   collateralAssetId,
   toString collateralAmountSigned,
   collateralAssetId,
   toString feeAmount,
   toString expirationSeconds,
   toString nonce,
   publicKey,
   domain.Name,
   domain.Version,
   domain.ChainID,
   domain.Revision]

/-- C5: the argument list handed to the external hashing primitive is exactly
the specification's parameter sequence (with the fee asset id repeating the
collateral asset id and the expiration already buffered and rounded), and the
pipeline invokes the primitive at no other argument list: two primitives that
agree on that single list produce identical pipeline results. -/
theorem c5_hash_call_contract :
    (∀ hp : HashOrderParams,
      hashOrderArgs hp =
        specComputeHashArgs hp.PositionID hp.SyntheticAssetID hp.AmountSynthetic
          hp.CollateralAssetID hp.AmountCollateral hp.MaxFee
          (hashExpirationSeconds hp.ExpirationTimestamp) hp.Nonce hp.PublicKey
          hp.StarknetDomain)
    ∧ (∀ (f g : List String → Except String String) (now : Int)
        (p : CreateOrderObjectParams),
        f (hashOrderArgs (builderHashParams p (resolvedExpireTime now p) (p.Nonce.getD 0)))
          = g (hashOrderArgs (builderHashParams p (resolvedExpireTime now p) (p.Nonce.getD 0))) →
        CreateOrderObject f now p = CreateOrderObject g now p) := by
  refine ⟨fun hp => rfl, ?_⟩
  intro f g now p h
  cases hn : p.Nonce with
  | none => simp [CreateOrderObject, hn]
  | some n =>
    rw [hn] at h
    simp only [Option.getD_some] at h
    have h2 : HashOrder f (builderHashParams p (resolvedExpireTime now p) n)
        = HashOrder g (builderHashParams p (resolvedExpireTime now p) n) := by
      unfold HashOrder
      rw [h]
    simp [CreateOrderObject, hn, h2]

/-- C5 witness: the contract at the reference scenario's hash parameters, and
primitive-agreement at the reference scenario (the spec-modelled primitive
against a constant function agreeing on the scenario's argument list). -/
theorem c5_hash_call_contract_witness :
    hashOrderArgs (builderHashParams c1Params c1ExpireTimeNS 1473459052)
      = specComputeHashArgs 10002 "0x4254432d3600000000000000000000" (-1000)
          "0x31857064564ed0ff978e687456963cba09c2c6985d8f9300a1de4962fafa054" 43445116
          21723 1705630137 1473459052
          "0x61c5e7e8339b7d56f197f54ea91b776776690e3232313de0f2ecbd0ef76f466" testDomain
    ∧ CreateOrderObject GetOrderHash 0 c1Params
        = CreateOrderObject (fun _ => Except.ok c1ReferenceHash) 0 c1Params := by
  constructor
  · have h := (c5_hash_call_contract).1 (builderHashParams c1Params c1ExpireTimeNS 1473459052)
    rw [h]
    decide
  · exact (c5_hash_call_contract).2 GetOrderHash (fun _ => Except.ok c1ReferenceHash) 0 c1Params
      (by decide)

/-- C6 (amended): the services-layer builder `createOrderObject` rejects a
FOK request with the unsupported-time-in-force error whenever the side is
valid, for every hashing primitive and signer (its result does not depend on
either, so neither is invoked); the exported `orders.CreateOrderObject`
performs no time-in-force validation at all and builds an order carrying
FOK (see the counterexample). -/
theorem c6_fok_rejected (getHash : List String → Except String String)
    (sign : String → Except String (Int × Int)) (p : SvcCreateOrderObjectParams)
    (hside : p.Side = OrderSideBuy ∨ p.Side = OrderSideSell)
    (htif : p.TimeInForce = TimeInForceFOK) :
    svcCreateOrderObject getHash sign p
      = Except.error ("unexpected time in force value: FOK is not supported") := by
  rcases hside with h | h <;>
    simp [svcCreateOrderObject, h, htif, OrderSideBuy, OrderSideSell, TimeInForceFOK]

/-- The services-builder parameter record of the reference scenario, with
time-in-force FOK. -/
def c6SvcParams : SvcCreateOrderObjectParams :=
  { Market := testMarket
    Account := testAccount
    SyntheticAmount := ⟨100000, -8⟩
    Price := ⟨4344511680000, -8⟩
    Side := OrderSideSell
    OrderType := OrderTypeLimit
    StarknetDomain := testDomain
    ExpireTime := c1ExpireTimeNS
    PostOnly := false
    ReduceOnly := false
    PreviousOrderExternalID := none
    OrderExternalID := none
    TimeInForce := TimeInForceFOK
    SelfTradeProtectionLevel := "ACCOUNT"
    Nonce := 1473459052
    BuilderFee := none
    BuilderID := none
    TpSlType := none
    TakeProfit := none
    StopLoss := none }

/-- C6 witness: a concrete FOK request through the services builder. -/
theorem c6_fok_rejected_witness :
    svcCreateOrderObject GetOrderHash dummySigner c6SvcParams
      = Except.error ("unexpected time in force value: FOK is not supported") :=
  c6_fok_rejected GetOrderHash dummySigner c6SvcParams (Or.inr rfl) rfl

/-- The reference scenario's parameters with time-in-force FOK, for the
exported builder. -/
def c6FokParams : CreateOrderObjectParams :=
  { c1Params with TimeInForce := TimeInForceFOK }

/-- C6 counterexample: the exported `orders.CreateOrderObject` does not fail
on a FOK request — it hashes, signs and returns an order whose time-in-force
is FOK, refuting the claim for that entry point. -/
theorem c6_counterexample :
    CreateOrderObject GetOrderHash 0 c6FokParams
      = Except.ok ({ c1Order with TimeInForce := TimeInForceFOK }) := by decide

/-- C7: whenever `orderExternalId` is absent and the build succeeds, the
resulting order's id is exactly the string the hashing primitive returned for
the pipeline's argument list. -/
theorem c7_default_id (f : List String → Except String String) (now : Int)
    (p : CreateOrderObjectParams) (h : String) (o : PerpetualOrderModel)
    (hext : p.OrderExternalID = none)
    (hhash : f (hashOrderArgs (builderHashParams p (resolvedExpireTime now p) (p.Nonce.getD 0)))
      = Except.ok h)
    (hrun : CreateOrderObject f now p = Except.ok o) :
    o.ID = h := by
  cases hn : p.Nonce with
  | none => simp [CreateOrderObject, hn] at hrun
  | some n =>
    rw [hn] at hhash
    simp only [Option.getD_some] at hhash
    have hh : HashOrder f (builderHashParams p (resolvedExpireTime now p) n) = Except.ok h := by
      unfold HashOrder
      rw [hhash]
    rcases hs : p.Signer h with e | rs
    · simp [CreateOrderObject, hn, hh, hs] at hrun
    · obtain ⟨r, s⟩ := rs
      simp only [CreateOrderObject, hn, hh, hs, Except.ok.injEq] at hrun
      rw [← hrun]
      simp [hext]

/-- C7 witness: the reference scenario, where the id equals the reference
hash returned by the primitive. -/
theorem c7_default_id_witness :
    c1Params.OrderExternalID = none ∧ c1Order.ID = c1ReferenceHash :=
  ⟨rfl, c7_default_id GetOrderHash 0 c1Params c1ReferenceHash c1Order rfl
    (by decide) (by decide)⟩

/-- C8: the fee resolver returns the cache entry for the market name when one
is present and the process-wide default otherwise; the default rates are
taker 0.0005, maker 0.0002, builder 0.  `GetTradingFee` is a pure function of
the account, so the lookup leaves the cache untouched. -/
theorem c8_fee_resolution (a : StarkPerpetualAccount) (m : String) :
    (∀ fee : TradingFeeModel, a.tradingFee.lookup m = some fee → a.GetTradingFee m = fee)
    ∧ (a.tradingFee.lookup m = none → a.GetTradingFee m = DefaultFees)
    ∧ DefaultFees.TakerFeeRate.toRat = 5 / 10000
    ∧ DefaultFees.MakerFeeRate.toRat = 2 / 10000
    ∧ DefaultFees.BuilderFeeRate.toRat = 0 := by
  refine ⟨?_, ?_, ?_, ?_, ?_⟩
  · intro fee hfee
    rw [StarkPerpetualAccount.GetTradingFee, hfee]
  · intro hnone
    rw [StarkPerpetualAccount.GetTradingFee, hnone]
  · norm_num [DefaultFees, GoDecimal.toRat]
  · norm_num [DefaultFees, GoDecimal.toRat]
  · norm_num [DefaultFees, GoDecimal.toRat]

/-- A distinct fee schedule used to exercise a cache hit. -/
def altFee : TradingFeeModel :=
  { Market := "ETH-USD", MakerFeeRate := ⟨1, -4⟩, TakerFeeRate := ⟨3, -4⟩,
    BuilderFeeRate := ⟨0, 0⟩ }

/-- C8 witness: a cache hit returns the cached entry; the empty cache falls
back to the default. -/
theorem c8_fee_resolution_witness :
    ({ testAccount with tradingFee := [("ETH-USD", altFee)] }
        : StarkPerpetualAccount).GetTradingFee "ETH-USD" = altFee
    ∧ testAccount.GetTradingFee "BTC-USD" = DefaultFees :=
  ⟨(c8_fee_resolution { testAccount with tradingFee := [("ETH-USD", altFee)] }
      "ETH-USD").1 altFee (by decide),
   (c8_fee_resolution testAccount "BTC-USD").2.1 (by decide)⟩

/-- C9 (amended): with the expire time supplied, the exported pipeline is a
pure function of its arguments — in particular two calls made at different
wall-clock instants (the only ambient input, read solely to default an absent
expire time) return identical orders, for any fixed deterministic hashing
primitive and signer.  With the expire time absent the output depends on the
clock (see the counterexample). -/
theorem c9_two_run_determinism (getHash : List String → Except String String)
    (now1 now2 : Int) (p : CreateOrderObjectParams) (t : Int)
    (h : p.ExpireTime = some t) :
    CreateOrderObject getHash now1 p = CreateOrderObject getHash now2 p := by
  simp [CreateOrderObject, resolvedExpireTime, h]

/-- The reference scenario with the expire time left absent. -/
def c9Params : CreateOrderObjectParams := { c1Params with ExpireTime := none }

set_option maxRecDepth 4000 in
/-- C9 counterexample: with identical input parameters (expire time absent)
and the same deterministic hashing primitive and signer, two runs one second
apart return different orders — the defaulted expiry is derived from
`time.Now()`, so the pipeline as a whole is not two-run deterministic. -/
theorem c9_counterexample :
    CreateOrderObject GetOrderHash 0 c9Params
      ≠ CreateOrderObject GetOrderHash 1000000000 c9Params := by decide

/-- C9 witness: two runs of the reference scenario at different clock
readings coincide. -/
theorem c9_two_run_determinism_witness :
    CreateOrderObject GetOrderHash 5 c1Params = CreateOrderObject GetOrderHash 99 c1Params :=
  c9_two_run_determinism GetOrderHash 5 99 c1Params c1ExpireTimeNS rfl

/-- C10: the exported `orders.CreateOrderObject` takes both the quantization
fee rate and the order's fee field from the process-wide `models.DefaultFees`
taker rate: its result is unchanged under any replacement of the account's
trading-fee cache, and every successful build renders the default taker rate
in the order's fee field. -/
theorem c10_fee_cache_ignored (getHash : List String → Except String String)
    (now : Int) (p : CreateOrderObjectParams)
    (cache : List (String × TradingFeeModel)) :
    CreateOrderObject getHash now
        { p with Account := { p.Account with tradingFee := cache } }
      = CreateOrderObject getHash now p
    ∧ (∀ o : PerpetualOrderModel, CreateOrderObject getHash now p = Except.ok o →
        o.Fee = decimalString DefaultFees.TakerFeeRate) := by
  constructor
  · rfl
  · intro o hrun
    cases hn : p.Nonce with
    | none => simp [CreateOrderObject, hn] at hrun
    | some n =>
      rcases hh : HashOrder getHash (builderHashParams p (resolvedExpireTime now p) n)
        with e | hsh
      · simp [CreateOrderObject, hn, hh] at hrun
      · rcases hs : p.Signer hsh with e | rs
        · simp [CreateOrderObject, hn, hh, hs] at hrun
        · obtain ⟨r, s⟩ := rs
          simp only [CreateOrderObject, hn, hh, hs, Except.ok.injEq] at hrun
          rw [← hrun]

/-- C10 witness: populating the cache with a different BTC-USD fee schedule
does not change the reference order, whose fee field is the default taker
rate 0.0005. -/
theorem c10_fee_cache_ignored_witness :
    CreateOrderObject GetOrderHash 0
        { c1Params with Account := { c1Params.Account with
            tradingFee := [("BTC-USD", altFee)] } }
      = CreateOrderObject GetOrderHash 0 c1Params
    ∧ c1Order.Fee = decimalString DefaultFees.TakerFeeRate :=
  ⟨(c10_fee_cache_ignored GetOrderHash 0 c1Params [("BTC-USD", altFee)]).1,
   (c10_fee_cache_ignored GetOrderHash 0 c1Params [("BTC-USD", altFee)]).2 c1Order (by decide)⟩
